import Mathlib

/-!
Verification of the `gopher-patterns` repository's two core facilities:

* `transaction` (src/unnamed/part_005): transaction-scoped context
  propagation over Go `context.Context` values and `gorm.DB` handles.
* `dbtesting` (src/db-testing/testdb.go): isolated test-database
  provisioning with option folding, a post-init hook pipeline,
  transaction wrapping and a LIFO cleanup stack.

The embedding is shallow: Go contexts become an inductive derivation
chain mirroring `context.WithValue`, `gorm.DB` handles become an
inductive tracking the underlying connection together with the
modifiers the code applies (`WithContext`, `Clauses(Locking UPDATE)`),
and the effectful provisioning function becomes a pure function over an
oracle that supplies the results of every external I/O call.
-/

set_option autoImplicit false

namespace transaction

mutual
/-- A `gorm.DB` handle as the `transaction` package manipulates it:
a base handle (identified by a number standing for the underlying
connection/transaction object), possibly decorated by
`WithContext(ctx)` (gorm: same connection, statement bound to `ctx`) or
by `Clauses(clause.Locking Strength UPDATE)`. -/
inductive DB where
  | base (id : Nat)
  | withCtx (db : DB) (ctx : Ctx)
  | lockingClause (db : DB)

/-- Go `context.Context` derivation: `background` is any context
carrying neither of the package's two private keys; `withTx p v` is
`context.WithValue(p, ctxKey, v)` where `v` is a `*gorm.DB` that may be
the nil pointer (`none`); `withSFU p b` is
`context.WithValue(p, selectForUpdateKey, b)`. Since both keys are
private to the package, no other value type ever sits under them. -/
inductive Ctx where
  | background
  | withTx (parent : Ctx) (tx : Option DB)
  | withSFU (parent : Ctx) (b : Bool)
end

/-- `ctx.Value(ctxKey)`: walk the derivation chain outward and return
the value stored by the nearest enclosing `WithValue(-, ctxKey, -)`;
`none` means the key is absent (Go: the interface value is nil),
`some none` means a nil `*gorm.DB` was stored. -/
def ctxValueTx : Ctx → Option (Option DB)
  | .background => none
  | .withTx _ tx => some tx
  | .withSFU p _ => ctxValueTx p

/-- `ctx.Value(selectForUpdateKey)`: nearest enclosing stored flag. -/
def ctxValueSFU : Ctx → Option Bool
  | .background => none
  | .withTx p _ => ctxValueSFU p
  | .withSFU _ b => some b

/-- `IsSelectForUpdate`: the stored flag if present, else `false`. -/
def IsSelectForUpdate (ctx : Ctx) : Bool :=
  match ctxValueSFU ctx with
  | some b => b
  | none => false

/-- `SelectForUpdate`: derive a context with the flag set to `true`. -/
def SelectForUpdate (ctx : Ctx) : Ctx :=
  Ctx.withSFU ctx true

/-- `db.WithContext(ctx)`: gorm returns a session handle over the same
connection with the statement context set to `ctx`. -/
def DB.withContext (db : DB) (ctx : Ctx) : DB :=
  DB.withCtx db ctx

/-- `db.Clauses(clause.Locking{Strength: "UPDATE"})`. -/
def DB.locking (db : DB) : DB :=
  DB.lockingClause db

/-- `GetTx`: the stored transaction if a non-nil one is present,
decorated with the locking clause when the select-for-update flag is
set on `ctx`; `none` models the nil return. -/
def GetTx (ctx : Ctx) : Option DB :=
  match ctxValueTx ctx with
  | some (some db) =>
      if IsSelectForUpdate ctx then some db.locking else some db
  | some none => none
  | none => none

/-- `SetTx`: store `tx` (a possibly-nil `*gorm.DB`) under the
transaction key. -/
def SetTx (ctx : Ctx) (tx : Option DB) : Ctx :=
  Ctx.withTx ctx tx

/-- `Fix`: a database function that always uses the provided instance. -/
def Fix (db : DB) : Ctx → DB :=
  fun ctx => db.withContext ctx

/-- `GetTxOrDefault`: use the context transaction when present, else
fall back to the provided default database. -/
def GetTxOrDefault (defaultDB : DB) : Ctx → DB :=
  fun ctx =>
    match GetTx ctx with
    | some tx => tx.withContext ctx
    | none => defaultDB.withContext ctx

/-- `fromTxFunc`: prefer the context transaction, else call `txFunc`.
The Go function type `func(ctx) *gorm.DB` may return nil (`none`). -/
def fromTxFunc (txFunc : Ctx → Option DB) : Ctx → Option DB :=
  fun ctx =>
    match GetTx ctx with
    | some tx => some tx
    | none => txFunc ctx

/-- `SetTxFunc`: `context.WithValue(ctx, ctxKey, fromTxFunc(txFunc)(ctx))`
— the function is evaluated at call time and the resulting value is
stored. -/
def SetTxFunc (ctx : Ctx) (txFunc : Ctx → Option DB) : Ctx :=
  Ctx.withTx ctx (fromTxFunc txFunc ctx)

/-- `MustGetTx`: the transaction if present; otherwise the function
panics (both the zap-logger branch and the bare `panic` abort), which
the embedding renders as `Except.error` with the panic message. -/
def MustGetTx (ctx : Ctx) : Except String DB :=
  match GetTx ctx with
  | some tx => Except.ok tx
  | none => Except.error "transaction not found in context - ensure SetTx was called"

/-- Strip the `WithContext` decorations: the underlying handle a
resolver returns, with locking clauses kept left intact. -/
def DB.stripCtx : DB → DB
  | .base i => .base i
  | .withCtx db _ => db.stripCtx
  | .lockingClause db => .lockingClause db.stripCtx

/-- Whether a locking clause has been applied anywhere on the handle. -/
def DB.locked : DB → Bool
  | .base _ => false
  | .withCtx db _ => db.locked
  | .lockingClause _ => true

end transaction

namespace dbtesting

/-- Errors carried by `error` values of the Go code. -/
abbrev Err := String

/-- An opened `gorm.DB` handle, identified by a number standing for the
underlying connection (or transaction) object. -/
abbrev DBH := Nat

/-- Go `type Env int`; `EnvTest = 0` and `EnvDev = 1` (both `iota` in
one `const` block); any other value hits the `default` switch cases. -/
abbrev Env := Nat

/-- `EnvTest`: unique database per test. -/
def EnvTest : Env := 0

/-- `EnvDev`: shared development database. -/
def EnvDev : Env := 1

/-- `Config` holds database connection configuration. -/
structure Config where
  Host : String
  Port : Nat
  User : String
  Password : String
  Database : String
deriving DecidableEq, Repr

/-- `Config.ConnString`: the PostgreSQL connection string produced by
`fmt.Sprintf`. -/
def Config.ConnString (c : Config) : String :=
  "host=" ++ c.Host ++ " port=" ++ toString c.Port ++ " user=" ++ c.User ++
    " password=" ++ c.Password ++ " dbname=" ++ c.Database ++ " sslmode=disable"

/-- `GetConfig`: deterministic per-environment parameters; the
`default` branch repeats the `EnvTest` values. -/
def GetConfig (env : Env) : Config :=
  if env = EnvTest then
    ⟨"localhost", 5432, "postgres", "password", "postgres"⟩
  else if env = EnvDev then
    ⟨"localhost", 5433, "postgres", "devpassword", "nova_dev"⟩
  else
    ⟨"localhost", 5432, "postgres", "password", "postgres"⟩

/-- `dbOptions`: the option set folded from the caller's `DBOption`
values before any I/O. A hook is `func(*gorm.DB) error`; `none` models
a nil error. -/
structure dbOptions where
  DebugOff : Bool := false
  NoWrapInTransaction : Bool := false
  PostInitHooks : List (DBH → Option Err) := []

/-- `DBOption`: a function mutating the option set. -/
abbrev DBOption := dbOptions → dbOptions

/-- `DBDebugOff`: disable SQL query logging. -/
def DBDebugOff : DBOption := fun o => { o with DebugOff := true }

/-- `DBNoWrapInTransaction`: skip automatic transaction wrapping. -/
def DBNoWrapInTransaction : DBOption := fun o => { o with NoWrapInTransaction := true }

/-- `DBWithHook`: append a post-init hook to the option set. -/
def DBWithHook (hook : DBH → Option Err) : DBOption :=
  fun o => { o with PostInitHooks := o.PostInitHooks ++ [hook] }

/-- The option-folding loop at the top of `CreateTestDB`:
`for _, option := range options { option(&opts) }` over zero-valued
`opts`. -/
def foldOptions (options : List DBOption) : dbOptions :=
  options.foldl (fun acc f => f acc) {}

/-- The connection cache `connections : map[string]*gorm.DB`, as an
association list in insertion order (keys are kept distinct, matching
map semantics). `connectionsMutex` serializes every call to
`getCachedDB`, so the embedding treats one call as one atomic state
transition. -/
abbrev CacheMap := List (String × DBH)

/-- Go map read `connections[connString]`. -/
def lookupCache (cache : CacheMap) (connString : String) : Option DBH :=
  match cache with
  | [] => none
  | (s, db) :: rest => if s = connString then some db else lookupCache rest connString

/-- `getCachedDB`: return the cached connection for `connString` if one
exists; otherwise open one via `gorm.Open` (outcome supplied by the
`openDB` oracle), store it on success, and propagate the error — with
the cache untouched — on failure. Returns the result together with the
cache state after the call. -/
def getCachedDB (openDB : String → Except Err DBH) (cache : CacheMap) (connString : String) :
    Except Err DBH × CacheMap :=
  match lookupCache cache connString with
  | some db => (Except.ok db, cache)
  | none =>
    match openDB connString with
    | Except.error e => (Except.error e, cache)
    | Except.ok db => (Except.ok db, cache ++ [(connString, db)])

/-- Outcomes of the external calls `CreateTestDB` makes, one field per
call site. Log levels (`logger.Info` vs `logger.Error`) only affect
logging and are not modelled. -/
structure Oracle where
  /-- Result of `getCachedDB(config.ConnString())` as seen by this call. -/
  getCached : String → Except Err DBH
  /-- Result of `gorm.Open(postgres.Open(connString), ...)`. -/
  openConn : String → Except Err DBH
  /-- Result of a `SELECT version()` round trip on a handle. -/
  queryVersion : DBH → Except Err String
  /-- Error of `db.Exec(stmt).Error` for the CREATE DATABASE statement. -/
  execCreate : DBH → String → Option Err
  /-- Result of `db.Begin()`; an error models a non-nil `tx.Error`. -/
  beginTx : DBH → Except Err DBH
  /-- The value drawn by `rand.Intn(10000000)` is `randN % 10000000`. -/
  randN : Nat

/-- One atomic effect performed by a registered cleanup callback. -/
inductive Step where
  | closeConn (h : DBH)
  | dropDatabase (base : DBH) (name : String)
  | rollback (h : DBH)
deriving DecidableEq, Repr

/-- How the `CreateTestDB` call ends. `skip m r` models
`t.Skipf(m)` followed by `return r` (always nil in the code); `fatal`
models a `require` failure or `t.Fatalf`, which abort the test. -/
inductive Outcome where
  | ok (db : DBH)
  | skip (msg : String) (ret : Option DBH)
  | fatal (msg : String)
deriving DecidableEq, Repr

/-- Everything observable about one `CreateTestDB` call: its outcome,
the `t.Cleanup` registrations in registration order (each one callback
running its steps in order), the hook invocations `(1-based position,
connection argument)` in invocation order, and the connection `Begin`
was called on, if it was. -/
structure Result where
  outcome : Outcome
  cleanups : List (List Step)
  hookCalls : List (Nat × DBH)
  began : Option DBH
deriving DecidableEq, Repr

/-- The test framework runs `t.Cleanup` callbacks in reverse
registration order, each exactly once, on test completion. -/
def runCleanups (cleanups : List (List Step)) : List Step :=
  cleanups.reverse.flatten

/-- The `require.NoError(t, err, "Post-init hook %d failed", i+1)`
failure message. -/
def hookFailMsg (pos : Nat) (e : Err) : String :=
  "Post-init hook " ++ toString pos ++ " failed: " ++ e

/-- The hook loop of `CreateTestDB`: run the hooks in order against
`db`, recording each invocation as `(1-based position, db)`, stopping
at the first hook that returns an error; `pos` is the 1-based position
of the first hook in `hooks`. Returns the invocation trace and the
failing position/error, if any. -/
def runHooks (db : DBH) (hooks : List (DBH → Option Err)) (pos : Nat) :
    List (Nat × DBH) × Option (Nat × Err) :=
  match hooks with
  | [] => ([], none)
  | h :: rest =>
    match h db with
    | some e => ([(pos, db)], some (pos, e))
    | none =>
      let r := runHooks db rest (pos + 1)
      ((pos, db) :: r.1, r.2)

/-- The tail of `CreateTestDB` shared by all environments: run the
post-init hooks against the live connection `db` (a hook failure is
fatal and nothing further happens), then unless
`opts.NoWrapInTransaction` begin a transaction on `db`, register a
cleanup that calls `tx.Rollback()`, and return `tx` instead of `db`. -/
def hookAndWrap (o : Oracle) (opts : dbOptions) (db : DBH) (cleanups : List (List Step)) :
    Result :=
  let hr := runHooks db opts.PostInitHooks 1
  match hr.2 with
  | some pe => ⟨Outcome.fatal (hookFailMsg pe.1 pe.2), cleanups, hr.1, none⟩
  | none =>
    if opts.NoWrapInTransaction then
      ⟨Outcome.ok db, cleanups, hr.1, none⟩
    else
      match o.beginTx db with
      | Except.error e => ⟨Outcome.fatal ("begin transaction: " ++ e), cleanups, hr.1, some db⟩
      | Except.ok tx => ⟨Outcome.ok tx, cleanups ++ [[Step.rollback tx]], hr.1, some db⟩

/-- The unique database name `fmt.Sprintf("test_db_%d", rand.Intn(10000000))`. -/
def testDBNameOf (o : Oracle) : String :=
  "test_db_" ++ toString (o.randN % 10000000)

/-- Connection string of the freshly created test database:
`config.Database = testDBName` before reconnecting. -/
def testDBConnString (o : Oracle) : String :=
  ({ GetConfig EnvTest with Database := testDBNameOf o } : Config).ConnString

/-- The environment `switch` of `CreateTestDB`. `EnvTest`: acquire the
cached base connection, check liveness (`require.NoError` and
`require.NotEmpty` on the version), create the uniquely named database,
open a dedicated connection to it, and register one cleanup callback
that closes that connection and then drops the database via the base
connection. `EnvDev`: open the shared database directly; an open or
liveness failure skips the test and returns nil. Unknown tags are
fatal. On success, returns the live connection and the cleanup
registrations made so far. -/
def provisionStage (o : Oracle) (env : Env) : Except Result (DBH × List (List Step)) :=
  if env = EnvTest then
    match o.getCached (GetConfig EnvTest).ConnString with
    | Except.error e =>
        Except.error ⟨Outcome.fatal ("failed to connect to base database: " ++ e), [], [], none⟩
    | Except.ok baseDB =>
      match o.queryVersion baseDB with
      | Except.error e => Except.error ⟨Outcome.fatal ("scan version: " ++ e), [], [], none⟩
      | Except.ok version =>
        if version = "" then
          Except.error ⟨Outcome.fatal "version is empty", [], [], none⟩
        else
          match o.execCreate baseDB ("CREATE DATABASE " ++ testDBNameOf o) with
          | some e => Except.error ⟨Outcome.fatal ("create database: " ++ e), [], [], none⟩
          | none =>
            match o.openConn (testDBConnString o) with
            | Except.error e =>
                Except.error ⟨Outcome.fatal ("open test database: " ++ e), [], [], none⟩
            | Except.ok testDB =>
                Except.ok (testDB,
                  [[Step.closeConn testDB, Step.dropDatabase baseDB (testDBNameOf o)]])
  else if env = EnvDev then
    match o.openConn (GetConfig EnvDev).ConnString with
    | Except.error e =>
        Except.error ⟨Outcome.skip ("Dev database not available: " ++ e) none, [], [], none⟩
    | Except.ok devDB =>
      match o.queryVersion devDB with
      | Except.error e =>
          Except.error ⟨Outcome.skip ("Dev database not accessible: " ++ e) none, [], [], none⟩
      | Except.ok _ => Except.ok (devDB, [])
  else
    Except.error ⟨Outcome.fatal ("Unknown environment: " ++ toString env), [], [], none⟩

/-- `CreateTestDB`: fold the options, run the environment switch, then
the shared hook-pipeline and transaction-wrapping tail. -/
def CreateTestDB (o : Oracle) (env : Env) (options : List DBOption) : Result :=
  let opts := foldOptions options
  match provisionStage o env with
  | Except.error r => r
  | Except.ok dbcs => hookAndWrap o opts dbcs.1 dbcs.2

end dbtesting

open transaction dbtesting

/-- The expected hook-invocation trace: `n` calls at 1-based positions
`pos, pos+1, ...`, every one passing the same connection `db`. -/
def callsFrom (db : DBH) (pos n : Nat) : List (Nat × DBH) :=
  match n with
  | 0 => []
  | m + 1 => (pos, db) :: callsFrom db (pos + 1) m

/-- Whether a cleanup step is a transaction rollback. -/
def isRollback : Step → Bool
  | .rollback _ => true
  | _ => false

/-- When every hook succeeds on `db`, the loop calls them all in order
and reports no failure. -/
theorem runHooks_all_ok (db : DBH) (hooks : List (DBH → Option Err)) (pos : Nat)
    (h : ∀ g ∈ hooks, g db = none) :
    runHooks db hooks pos = (callsFrom db pos hooks.length, none) := by
  induction hooks generalizing pos with
  | nil => rfl
  | cons g rest ih =>
    have hg : g db = none := h g (List.mem_cons_self g rest)
    simp [runHooks, hg, ih (pos + 1) (fun a ha => h a (List.mem_cons_of_mem g ha)), callsFrom]

/-- When the hooks before `hk` succeed on `db` and `hk` fails with `e`,
the loop calls exactly the prefix and `hk` (in order, each with `db`)
and reports the failure at `hk`'s 1-based position; the hooks after
`hk` are never consulted. -/
theorem runHooks_fail (db : DBH) (pre post : List (DBH → Option Err))
    (hk : DBH → Option Err) (pos : Nat) (e : Err)
    (hpre : ∀ g ∈ pre, g db = none) (hf : hk db = some e) :
    runHooks db (pre ++ hk :: post) pos
      = (callsFrom db pos (pre.length + 1), some (pre.length + pos, e)) := by
  induction pre generalizing pos with
  | nil => simp [runHooks, hf, callsFrom]
  | cons g rest ih =>
    have hg : g db = none := hpre g (List.mem_cons_self g rest)
    have ih2 := ih (pos + 1) (fun a ha => hpre a (List.mem_cons_of_mem g ha))
    have step : runHooks db ((g :: rest) ++ hk :: post) pos
        = ((pos, db) :: (runHooks db (rest ++ hk :: post) (pos + 1)).1,
           (runHooks db (rest ++ hk :: post) (pos + 1)).2) := by
      simp [runHooks, hg]
    rw [step, ih2]
    simp [callsFrom]
    omega

/-- The shared tail never skips: skipping happens only in the `EnvDev`
arm of the environment switch. -/
theorem hookAndWrap_no_skip (o : Oracle) (opts : dbOptions) (db : DBH)
    (cs : List (List Step)) (m : String) (r : Option DBH) :
    (hookAndWrap o opts db cs).outcome ≠ Outcome.skip m r := by
  unfold hookAndWrap
  rcases h2 : (runHooks db opts.PostInitHooks 1).2 with _ | pe
  · by_cases hw : opts.NoWrapInTransaction
    · simp [h2, hw]
    · rcases hb : o.beginTx db with e | tx <;> simp [h2, hw, hb]
  · simp [h2]

/-- Derivations that do not touch the transaction key leave the
nearest-stored transaction value unchanged. -/
theorem ctxValueTx_withSFU (ctx : Ctx) (b : Bool) :
    ctxValueTx (Ctx.withSFU ctx b) = ctxValueTx ctx := rfl

/-- Derivations that do not touch the flag key leave the stored flag
unchanged. -/
theorem ctxValueSFU_withTx (ctx : Ctx) (tx : Option DB) :
    ctxValueSFU (Ctx.withTx ctx tx) = ctxValueSFU ctx := rfl

/-- If no non-nil transaction is retrievable from `ctx`, none is
retrievable after setting the row-locking flag either. -/
theorem getTx_selectForUpdate_none (ctx : Ctx) (h : GetTx ctx = none) :
    GetTx (SelectForUpdate ctx) = none := by
  unfold GetTx at h ⊢
  unfold SelectForUpdate
  rw [ctxValueTx_withSFU]
  cases hv : ctxValueTx ctx with
  | none => simp
  | some v =>
    cases v with
    | none => simp
    | some db =>
      rw [hv] at h
      by_cases hf : IsSelectForUpdate ctx <;> simp [hf] at h

/-- Successful `EnvTest` provisioning: the dedicated connection is
returned together with the single cleanup registration that first
closes it and then drops the created database on the base connection. -/
theorem provisionStage_envTest_ok (o : Oracle) (b tdb : DBH) (v : String)
    (h1 : o.getCached (GetConfig EnvTest).ConnString = Except.ok b)
    (h2 : o.queryVersion b = Except.ok v) (hv : v ≠ "")
    (h3 : o.execCreate b ("CREATE DATABASE " ++ testDBNameOf o) = none)
    (h4 : o.openConn (testDBConnString o) = Except.ok tdb) :
    provisionStage o EnvTest
      = Except.ok (tdb, [[Step.closeConn tdb, Step.dropDatabase b (testDBNameOf o)]]) := by
  simp [provisionStage, h1, h2, hv, h3, h4]

/-- No cleanup registered by the environment switch is a transaction
rollback: rollbacks enter only through the transaction wrapper. -/
theorem provisionStage_noRollback (o : Oracle) (env : Env) (db : DBH)
    (cs : List (List Step))
    (h : provisionStage o env = Except.ok (db, cs)) :
    ∀ l ∈ cs, ∀ s ∈ l, isRollback s = false := by
  unfold provisionStage at h
  repeat' split at h
  all_goals simp_all [isRollback]
  all_goals obtain ⟨rfl, rfl⟩ := h
  all_goals simp [isRollback]

/-- C2: hooks run strictly in registration order against the live
pre-transaction connection; the first failing hook aborts provisioning
— later hooks never run, no transaction wrapping happens, no further
cleanup is registered — and the test fails with that hook's error and
its 1-based position; when every hook succeeds, all of them are called
in order with the same connection. -/
theorem c2_hook_pipeline (o : Oracle) (env : Env) (options : List DBOption)
    (db : DBH) (cs : List (List Step))
    (hstage : provisionStage o env = Except.ok (db, cs)) :
    (∀ pre hk post e, (foldOptions options).PostInitHooks = pre ++ hk :: post →
      (∀ g ∈ pre, g db = none) → hk db = some e →
      CreateTestDB o env options
        = ⟨Outcome.fatal (hookFailMsg (pre.length + 1) e), cs,
           callsFrom db 1 (pre.length + 1), none⟩)
    ∧ ((∀ g ∈ (foldOptions options).PostInitHooks, g db = none) →
      (CreateTestDB o env options).hookCalls
        = callsFrom db 1 (foldOptions options).PostInitHooks.length) := by
  constructor
  · intro pre hk post e hh hpre hf
    have hrun := runHooks_fail db pre post hk 1 e hpre hf
    simp only [CreateTestDB, hstage]
    unfold hookAndWrap
    rw [hh, hrun]
  · intro hall
    have hrun := runHooks_all_ok db (foldOptions options).PostInitHooks 1 hall
    simp only [CreateTestDB, hstage]
    unfold hookAndWrap
    rw [hrun]
    by_cases hw : (foldOptions options).NoWrapInTransaction
    · simp [hw]
    · rcases hb : o.beginTx db with e | tx <;> simp [hw, hb]

/-- A happy-path oracle: base connection 10, dedicated connection 11,
transaction 12, live version string, no statement errors. -/
def oracleA : Oracle where
  getCached := fun _ => Except.ok 10
  openConn := fun _ => Except.ok 11
  queryVersion := fun _ => Except.ok "PostgreSQL 15.1"
  execCreate := fun _ _ => none
  beginTx := fun _ => Except.ok 12
  randN := 42

/-- Witness for C2: with one succeeding and one failing hook, the
failing hook's 1-based position (2) and error reach the failure
message, both hooks ran in order against connection 11, and neither a
transaction nor a rollback cleanup was created. -/
theorem c2_hook_pipeline_witness :
    CreateTestDB oracleA EnvTest
        [DBWithHook (fun _ => none), DBWithHook (fun _ => some "boom")]
      = ⟨Outcome.fatal (hookFailMsg 2 "boom"),
         [[Step.closeConn 11, Step.dropDatabase 10 (testDBNameOf oracleA)]],
         [(1, 11), (2, 11)], none⟩ :=
  (c2_hook_pipeline oracleA EnvTest
      [DBWithHook (fun _ => none), DBWithHook (fun _ => some "boom")]
      11 [[Step.closeConn 11, Step.dropDatabase 10 (testDBNameOf oracleA)]]
      (provisionStage_envTest_ok oracleA 10 11 "PostgreSQL 15.1" rfl rfl
        (by simp) rfl rfl)).1
    [fun _ => none] (fun _ => some "boom") [] "boom" rfl (by simp) rfl

/-- Occurrences of a step in a cleanup trace. -/
def countStep (s : Step) (l : List Step) : Nat :=
  (l.filter (fun x => x = s)).length

/-- C3: after a successful hook pipeline, unless
`DBNoWrapInTransaction` was given, `CreateTestDB` begins a transaction
on the live connection, registers one more cleanup that issues a
rollback (run unconditionally by the cleanup stack), and returns the
transaction handle; a begin failure is fatal. With the option set, the
returned handle is the live connection itself and no rollback cleanup
exists anywhere in the registrations. -/
theorem c3_transaction_wrapping (o : Oracle) (env : Env) (options : List DBOption)
    (db : DBH) (cs : List (List Step))
    (hstage : provisionStage o env = Except.ok (db, cs))
    (hhooks : ∀ g ∈ (foldOptions options).PostInitHooks, g db = none) :
    ((foldOptions options).NoWrapInTransaction = false →
      (∀ tx, o.beginTx db = Except.ok tx →
        CreateTestDB o env options
          = ⟨Outcome.ok tx, cs ++ [[Step.rollback tx]],
             callsFrom db 1 (foldOptions options).PostInitHooks.length, some db⟩
        ∧ runCleanups (CreateTestDB o env options).cleanups
            = Step.rollback tx :: runCleanups cs)
      ∧ (∀ e, o.beginTx db = Except.error e →
          (CreateTestDB o env options).outcome
            = Outcome.fatal ("begin transaction: " ++ e)))
    ∧ ((foldOptions options).NoWrapInTransaction = true →
      CreateTestDB o env options
        = ⟨Outcome.ok db, cs,
           callsFrom db 1 (foldOptions options).PostInitHooks.length, none⟩
      ∧ ∀ l ∈ (CreateTestDB o env options).cleanups, ∀ s ∈ l, isRollback s = false) := by
  have hrun := runHooks_all_ok db (foldOptions options).PostInitHooks 1 hhooks
  constructor
  · intro hw
    constructor
    · intro tx hb
      have hc : CreateTestDB o env options
          = ⟨Outcome.ok tx, cs ++ [[Step.rollback tx]],
             callsFrom db 1 (foldOptions options).PostInitHooks.length, some db⟩ := by
        simp only [CreateTestDB, hstage]
        unfold hookAndWrap
        rw [hrun]
        simp [hw, hb]
      refine ⟨hc, ?_⟩
      rw [hc]
      simp [runCleanups]
    · intro e hb
      simp only [CreateTestDB, hstage]
      unfold hookAndWrap
      rw [hrun]
      simp [hw, hb]
  · intro hw
    have hc : CreateTestDB o env options
        = ⟨Outcome.ok db, cs,
           callsFrom db 1 (foldOptions options).PostInitHooks.length, none⟩ := by
      simp only [CreateTestDB, hstage]
      unfold hookAndWrap
      rw [hrun]
      simp [hw]
    refine ⟨hc, ?_⟩
    rw [hc]
    exact provisionStage_noRollback o env db cs hstage

/-- Witness for C3: both branches at concrete inputs — with wrapping,
transaction 12 is returned and a rollback cleanup appended; with
`DBNoWrapInTransaction`, connection 11 itself is returned and no
rollback is registered. -/
theorem c3_transaction_wrapping_witness :
    CreateTestDB oracleA EnvTest []
      = ⟨Outcome.ok 12,
         [[Step.closeConn 11, Step.dropDatabase 10 (testDBNameOf oracleA)],
          [Step.rollback 12]],
         [], some 11⟩
    ∧ CreateTestDB oracleA EnvTest [DBNoWrapInTransaction]
      = ⟨Outcome.ok 11,
         [[Step.closeConn 11, Step.dropDatabase 10 (testDBNameOf oracleA)]],
         [], none⟩ :=
  ⟨(((c3_transaction_wrapping oracleA EnvTest [] 11
        [[Step.closeConn 11, Step.dropDatabase 10 (testDBNameOf oracleA)]]
        (provisionStage_envTest_ok oracleA 10 11 "PostgreSQL 15.1" rfl rfl
          (by simp) rfl rfl)
        (by simp [foldOptions])).1 rfl).1 12 rfl).1,
   (((c3_transaction_wrapping oracleA EnvTest [DBNoWrapInTransaction] 11
        [[Step.closeConn 11, Step.dropDatabase 10 (testDBNameOf oracleA)]]
        (provisionStage_envTest_ok oracleA 10 11 "PostgreSQL 15.1" rfl rfl
          (by simp) rfl rfl)
        (by simp [foldOptions, DBNoWrapInTransaction])).2 rfl).1)⟩

/-- C4: for an `EnvTest` session on the happy path, the cleanups are
one registration closing the dedicated connection and then dropping the
created database on the base connection (in that order), plus the later
rollback registration; the cleanup stack unwinds in reverse
registration order — rollback, close, drop — and performs each step
exactly once. -/
theorem c4_cleanup_order (o : Oracle) (options : List DBOption)
    (b tdb tx : DBH) (v : String)
    (h1 : o.getCached (GetConfig EnvTest).ConnString = Except.ok b)
    (h2 : o.queryVersion b = Except.ok v) (hv : v ≠ "")
    (h3 : o.execCreate b ("CREATE DATABASE " ++ testDBNameOf o) = none)
    (h4 : o.openConn (testDBConnString o) = Except.ok tdb)
    (hhooks : ∀ g ∈ (foldOptions options).PostInitHooks, g tdb = none)
    (hw : (foldOptions options).NoWrapInTransaction = false)
    (h5 : o.beginTx tdb = Except.ok tx) :
    (CreateTestDB o EnvTest options).cleanups
        = [[Step.closeConn tdb, Step.dropDatabase b (testDBNameOf o)],
           [Step.rollback tx]]
    ∧ runCleanups (CreateTestDB o EnvTest options).cleanups
        = [Step.rollback tx, Step.closeConn tdb, Step.dropDatabase b (testDBNameOf o)]
    ∧ countStep (Step.rollback tx)
        (runCleanups (CreateTestDB o EnvTest options).cleanups) = 1
    ∧ countStep (Step.closeConn tdb)
        (runCleanups (CreateTestDB o EnvTest options).cleanups) = 1
    ∧ countStep (Step.dropDatabase b (testDBNameOf o))
        (runCleanups (CreateTestDB o EnvTest options).cleanups) = 1 := by
  have hstage := provisionStage_envTest_ok o b tdb v h1 h2 hv h3 h4
  have hrun := runHooks_all_ok tdb (foldOptions options).PostInitHooks 1 hhooks
  have hc : CreateTestDB o EnvTest options
      = ⟨Outcome.ok tx,
         [[Step.closeConn tdb, Step.dropDatabase b (testDBNameOf o)],
          [Step.rollback tx]],
         callsFrom tdb 1 (foldOptions options).PostInitHooks.length, some tdb⟩ := by
    simp only [CreateTestDB, hstage]
    unfold hookAndWrap
    rw [hrun]
    simp [hw, h5]
  rw [hc]
  refine ⟨rfl, by simp [runCleanups], ?_, ?_, ?_⟩ <;> simp [runCleanups, countStep]

/-- Witness for C4 on the happy-path oracle with no options. -/
theorem c4_cleanup_order_witness :
    (CreateTestDB oracleA EnvTest []).cleanups
        = [[Step.closeConn 11, Step.dropDatabase 10 (testDBNameOf oracleA)],
           [Step.rollback 12]]
    ∧ runCleanups (CreateTestDB oracleA EnvTest []).cleanups
        = [Step.rollback 12, Step.closeConn 11,
           Step.dropDatabase 10 (testDBNameOf oracleA)] :=
  ⟨(c4_cleanup_order oracleA [] 10 11 12 "PostgreSQL 15.1" rfl rfl (by simp)
      rfl rfl (by simp [foldOptions]) rfl rfl).1,
   (c4_cleanup_order oracleA [] 10 11 12 "PostgreSQL 15.1" rfl rfl (by simp)
      rfl rfl (by simp [foldOptions]) rfl rfl).2.1⟩

/-- The two environment tags are distinct numbers. -/
theorem envDev_ne_envTest : EnvDev ≠ EnvTest := by decide

/-- Environment-switch failures outside `EnvDev` are never skips. -/
theorem provisionStage_error_not_skip (o : Oracle) (env : Env) (r : Result)
    (henv : env = EnvDev → False) (h : provisionStage o env = Except.error r)
    (m : String) (ret : Option DBH) : r.outcome ≠ Outcome.skip m ret := by
  intro hskip
  unfold provisionStage at h
  repeat' split at h
  all_goals first
    | exact henv (by assumption)
    | (injection h with h2; subst h2; simp at hskip)
    | injection h

/-- An `EnvDev` environment-switch failure is exactly an open failure
or a liveness failure, and in both cases the result is a skip carrying
a nil handle and no cleanups. -/
theorem provisionStage_envDev_error (o : Oracle) (r : Result)
    (h : provisionStage o EnvDev = Except.error r) :
    (∃ e, o.openConn (GetConfig EnvDev).ConnString = Except.error e
      ∧ r = ⟨Outcome.skip ("Dev database not available: " ++ e) none, [], [], none⟩)
    ∨ (∃ d e, o.openConn (GetConfig EnvDev).ConnString = Except.ok d
      ∧ o.queryVersion d = Except.error e
      ∧ r = ⟨Outcome.skip ("Dev database not accessible: " ++ e) none, [], [], none⟩) := by
  rcases ho : o.openConn (GetConfig EnvDev).ConnString with e | d
  · left
    refine ⟨e, rfl, ?_⟩
    simp [provisionStage, ho, envDev_ne_envTest] at h
    exact h.symm
  · rcases hq : o.queryVersion d with e | v
    · right
      refine ⟨d, e, rfl, hq, ?_⟩
      simp [provisionStage, ho, hq, envDev_ne_envTest] at h
      exact h.symm
    · exfalso
      simp [provisionStage, ho, hq, envDev_ne_envTest] at h

/-- Successful `EnvDev` provisioning returns the shared connection and
registers no cleanups. -/
theorem provisionStage_envDev_ok (o : Oracle) (d : DBH) (v : String)
    (ho : o.openConn (GetConfig EnvDev).ConnString = Except.ok d)
    (hq : o.queryVersion d = Except.ok v) :
    provisionStage o EnvDev = Except.ok (d, []) := by
  simp [provisionStage, ho, hq, envDev_ne_envTest]

/-- C5: a skip outcome happens only in the `EnvDev` environment and
always returns the nil handle; for `EnvDev` it happens exactly when
opening the shared database fails or the liveness check fails. -/
theorem c5_dev_skip (o : Oracle) (env : Env) (options : List DBOption) :
    (∀ m r, (CreateTestDB o env options).outcome = Outcome.skip m r →
      env = EnvDev ∧ r = none)
    ∧ (env = EnvDev →
      ((∃ m, (CreateTestDB o env options).outcome = Outcome.skip m none)
        ↔ ((∃ e, o.openConn (GetConfig EnvDev).ConnString = Except.error e)
          ∨ (∃ d e, o.openConn (GetConfig EnvDev).ConnString = Except.ok d
              ∧ o.queryVersion d = Except.error e)))) := by
  constructor
  · intro m r hskip
    rcases hstage : provisionStage o env with rr | dbcs
    · simp only [CreateTestDB, hstage] at hskip
      by_cases henv : env = EnvDev
      · subst henv
        refine ⟨rfl, ?_⟩
        rcases provisionStage_envDev_error o rr hstage with ⟨e, _, rfl⟩ | ⟨d, e, _, _, rfl⟩ <;>
          simp_all
      · exact absurd hskip (provisionStage_error_not_skip o env rr (fun he => henv he)
          hstage m r)
    · simp only [CreateTestDB, hstage] at hskip
      exact absurd hskip (hookAndWrap_no_skip o (foldOptions options) dbcs.1 dbcs.2 m r)
  · intro henv
    subst henv
    rcases ho : o.openConn (GetConfig EnvDev).ConnString with e | d
    · have hstage : provisionStage o EnvDev
          = Except.error ⟨Outcome.skip ("Dev database not available: " ++ e) none,
              [], [], none⟩ := by
        simp [provisionStage, ho, envDev_ne_envTest]
      constructor
      · intro _
        exact Or.inl ⟨e, rfl⟩
      · intro _
        exact ⟨"Dev database not available: " ++ e, by simp [CreateTestDB, hstage]⟩
    · rcases hq : o.queryVersion d with e | v
      · have hstage : provisionStage o EnvDev
            = Except.error ⟨Outcome.skip ("Dev database not accessible: " ++ e) none,
                [], [], none⟩ := by
          simp [provisionStage, ho, hq, envDev_ne_envTest]
        constructor
        · intro _
          exact Or.inr ⟨d, e, rfl, hq⟩
        · intro _
          exact ⟨"Dev database not accessible: " ++ e, by simp [CreateTestDB, hstage]⟩
      · have hstage := provisionStage_envDev_ok o d v ho hq
        constructor
        · rintro ⟨m, hm⟩
          simp only [CreateTestDB, hstage] at hm
          exact absurd hm (hookAndWrap_no_skip o (foldOptions options) d [] m none)
        · rintro (⟨e, he⟩ | ⟨d', e, hd', hq'⟩)
          · exact Except.noConfusion he
          · obtain rfl : d = d' := by
              injection hd'
            rw [hq] at hq'
            exact Except.noConfusion hq'

/-- An oracle whose shared development database refuses connections. -/
def oracleB : Oracle where
  getCached := fun _ => Except.ok 10
  openConn := fun _ => Except.error "connection refused"
  queryVersion := fun _ => Except.ok "PostgreSQL 15.1"
  execCreate := fun _ _ => none
  beginTx := fun _ => Except.ok 12
  randN := 0

/-- Witness for C5: with the shared database unreachable, the `EnvDev`
call skips (with a nil handle) rather than failing. -/
theorem c5_dev_skip_witness :
    ∃ m, (CreateTestDB oracleB EnvDev []).outcome = Outcome.skip m none :=
  ((c5_dev_skip oracleB EnvDev []).2 rfl).mpr (Or.inl ⟨"connection refused", rfl⟩)

/-- A cache lookup misses exactly when no entry carries the key. -/
theorem lookupCache_none (cache : CacheMap) (s : String) :
    lookupCache cache s = none ↔ s ∉ cache.map Prod.fst := by
  induction cache with
  | nil => simp [lookupCache]
  | cons p rest ih =>
    obtain ⟨k, d⟩ := p
    by_cases hk : k = s
    · subst hk
      simp [lookupCache]
    · simp [lookupCache, hk, ih, Ne.symm hk]

/-- After storing a missing key at the end of the cache, lookups for it
hit the new entry. -/
theorem lookupCache_append_self (cache : CacheMap) (s : String) (db : DBH)
    (h : lookupCache cache s = none) :
    lookupCache (cache ++ [(s, db)]) s = some db := by
  induction cache with
  | nil => simp [lookupCache]
  | cons p rest ih =>
    obtain ⟨k, d⟩ := p
    by_cases hk : k = s
    · simp [lookupCache, hk] at h
    · simp [lookupCache, hk] at h ⊢
      exact ih h

/-- C6: one `getCachedDB` call (the mutex makes calls atomic) keeps the
cache a per-connection-string singleton store: a hit returns the cached
connection and leaves the cache untouched without consulting the
opener; a miss opens, stores, and returns the new connection, which
subsequent lookups then find; an open failure is propagated with the
cache unchanged, so the key stays missing and a later call retries;
and distinctness of the cached connection strings is preserved. -/
theorem c6_cache_invariant (openDB : String → Except Err DBH) (cache : CacheMap)
    (s : String) :
    (∀ db, lookupCache cache s = some db →
      ∀ openDB2, getCachedDB openDB2 cache s = (Except.ok db, cache))
    ∧ (lookupCache cache s = none →
      (∀ e, openDB s = Except.error e →
        getCachedDB openDB cache s = (Except.error e, cache))
      ∧ (∀ db, openDB s = Except.ok db →
        getCachedDB openDB cache s = (Except.ok db, cache ++ [(s, db)])
        ∧ lookupCache (cache ++ [(s, db)]) s = some db))
    ∧ ((cache.map Prod.fst).Nodup →
      ((getCachedDB openDB cache s).2.map Prod.fst).Nodup) := by
  refine ⟨fun db h openDB2 => ?_,
    fun h => ⟨fun e he => ?_, fun db hdb => ⟨?_, lookupCache_append_self cache s db h⟩⟩,
    fun hnd => ?_⟩
  · simp [getCachedDB, h]
  · simp [getCachedDB, h, he]
  · simp [getCachedDB, h, hdb]
  · rcases hl : lookupCache cache s with _ | db
    · rcases hob : openDB s with e | db
      · simpa [getCachedDB, hl, hob] using hnd
      · have hs : s ∉ cache.map Prod.fst := (lookupCache_none cache s).mp hl
        simp only [getCachedDB, hl, hob, List.map_append, List.nodup_append]
        refine ⟨hnd, by simp, ?_⟩
        intro a ha hb
        simp only [List.map_cons, List.map_nil, List.mem_singleton] at hb
        subst hb
        exact hs ha
    · simpa [getCachedDB, hl] using hnd

/-- Witness for C6: a hit leaves the one-entry cache untouched, a miss
appends, a failed open changes nothing. -/
theorem c6_cache_invariant_witness :
    getCachedDB (fun _ => Except.ok 7) [("a", 1)] "a" = (Except.ok 1, [("a", 1)])
    ∧ getCachedDB (fun _ => Except.ok 7) [("a", 1)] "b"
        = (Except.ok 7, [("a", 1), ("b", 7)])
    ∧ getCachedDB (fun _ => Except.error "down") [("a", 1)] "b"
        = (Except.error "down", [("a", 1)]) :=
  ⟨(c6_cache_invariant (fun _ => Except.ok 7) [("a", 1)] "a").1 1 rfl
      (fun _ => Except.ok 7),
   (((c6_cache_invariant (fun _ => Except.ok 7) [("a", 1)] "b").2.1 rfl).2 7 rfl).1,
   ((c6_cache_invariant (fun _ => Except.error "down") [("a", 1)] "b").2.1 rfl).1
      "down" rfl⟩

/-- C1: `GetTxOrDefault d ctx` is the ambient transaction (bound to
`ctx` by `WithContext`) when `GetTx` finds one — and the nearest
enclosing `SetTx` determines which one — else the default `d`;
`Fix c ctx` is always `c` bound to `ctx`, whatever the ambient state. -/
theorem c1_getTxOrDefault_fix (d : DB) (ctx : Ctx) :
    (∀ tx, GetTx ctx = some tx →
      GetTxOrDefault d ctx = tx.withContext ctx
      ∧ (GetTxOrDefault d ctx).stripCtx = tx.stripCtx)
    ∧ (GetTx ctx = none →
      GetTxOrDefault d ctx = d.withContext ctx
      ∧ (GetTxOrDefault d ctx).stripCtx = d.stripCtx)
    ∧ (∀ v, ctxValueTx (SetTx ctx v) = some v)
    ∧ (∀ t1 t2, GetTx (SetTx (SetTx ctx t1) t2) = GetTx (SetTx ctx t2))
    ∧ (∀ c, Fix c ctx = c.withContext ctx ∧ (Fix c ctx).stripCtx = c.stripCtx) := by
  refine ⟨fun tx h => ?_, fun h => ?_, fun v => rfl, fun t1 t2 => ?_, fun c => ⟨rfl, rfl⟩⟩
  · simp [GetTxOrDefault, h, DB.withContext, DB.stripCtx]
  · simp [GetTxOrDefault, h, DB.withContext, DB.stripCtx]
  · simp [GetTx, SetTx, ctxValueTx, IsSelectForUpdate, ctxValueSFU]

/-- Witness for C1 at a concrete context chain. -/
theorem c1_getTxOrDefault_fix_witness :
    GetTxOrDefault (DB.base 0) (SetTx Ctx.background (some (DB.base 1)))
      = (DB.base 1).withContext (SetTx Ctx.background (some (DB.base 1)))
    ∧ GetTxOrDefault (DB.base 0) Ctx.background = (DB.base 0).withContext Ctx.background :=
  ⟨((c1_getTxOrDefault_fix (DB.base 0) (SetTx Ctx.background (some (DB.base 1)))).1
      (DB.base 1) rfl).1,
   ((c1_getTxOrDefault_fix (DB.base 0) Ctx.background).2.1 rfl).1⟩

/-- C7: the row-locking flag defaults to `false` when never set, is
`true` after `SelectForUpdate`, and when both the flag and a
transaction are present `GetTx` returns the transaction decorated with
the `FOR UPDATE` locking clause. -/
theorem c7_selectForUpdate_getTx (ctx : Ctx) :
    (ctxValueSFU ctx = none → IsSelectForUpdate ctx = false)
    ∧ IsSelectForUpdate (SelectForUpdate ctx) = true
    ∧ (∀ tx, ctxValueTx ctx = some (some tx) → IsSelectForUpdate ctx = true →
        GetTx ctx = some tx.locking) := by
  refine ⟨fun h => ?_, ?_, fun tx h1 h2 => ?_⟩
  · simp [IsSelectForUpdate, h]
  · simp [IsSelectForUpdate, SelectForUpdate, ctxValueSFU]
  · simp [GetTx, h1, h2]

/-- Witness for C7 at concrete contexts. -/
theorem c7_selectForUpdate_getTx_witness :
    IsSelectForUpdate Ctx.background = false
    ∧ GetTx (SelectForUpdate (SetTx Ctx.background (some (DB.base 2))))
        = some (DB.base 2).locking :=
  ⟨(c7_selectForUpdate_getTx Ctx.background).1 rfl,
   (c7_selectForUpdate_getTx (SelectForUpdate (SetTx Ctx.background (some (DB.base 2))))).2.2
      (DB.base 2) rfl rfl⟩

/-- C8: `MustGetTx` returns the ambient transaction when present, and
panics (embedded as `Except.error` with the panic message) when none
is present — never a normal nil return. -/
theorem c8_mustGetTx (ctx : Ctx) :
    (∀ tx, GetTx ctx = some tx → MustGetTx ctx = Except.ok tx)
    ∧ (GetTx ctx = none →
        MustGetTx ctx
          = Except.error "transaction not found in context - ensure SetTx was called") := by
  refine ⟨fun tx h => ?_, fun h => ?_⟩ <;> simp [MustGetTx, h]

/-- Witness for C8: a present and an absent ambient transaction. -/
theorem c8_mustGetTx_witness :
    MustGetTx (SetTx Ctx.background (some (DB.base 3))) = Except.ok (DB.base 3)
    ∧ MustGetTx Ctx.background
        = Except.error "transaction not found in context - ensure SetTx was called" :=
  ⟨(c8_mustGetTx (SetTx Ctx.background (some (DB.base 3)))).1 (DB.base 3) rfl,
   (c8_mustGetTx Ctx.background).2 rfl⟩

/-- C9: the row-locking flag only affects the ambient-transaction
path: with no ambient transaction, `GetTxOrDefault` returns the default
with no locking clause added even under `SelectForUpdate`; `Fix` never
adds a locking clause; and without the flag, `GetTx` returns the stored
transaction undecorated. -/
theorem c9_locking_only_ambient (d : DB) (ctx : Ctx) :
    (GetTx ctx = none →
      GetTxOrDefault d ctx = d.withContext ctx
      ∧ (GetTxOrDefault d ctx).locked = d.locked
      ∧ GetTxOrDefault d (SelectForUpdate ctx) = d.withContext (SelectForUpdate ctx)
      ∧ (GetTxOrDefault d (SelectForUpdate ctx)).locked = d.locked)
    ∧ (∀ c, (Fix c ctx).locked = c.locked)
    ∧ (∀ tx, ctxValueTx ctx = some (some tx) → IsSelectForUpdate ctx = false →
        GetTx ctx = some tx) := by
  refine ⟨fun h => ?_, fun c => rfl, fun tx h1 h2 => ?_⟩
  · have h2 := getTx_selectForUpdate_none ctx h
    exact ⟨by simp [GetTxOrDefault, h], by simp [GetTxOrDefault, h, DB.withContext, DB.locked],
      by simp [GetTxOrDefault, h2], by simp [GetTxOrDefault, h2, DB.withContext, DB.locked]⟩
  · simp [GetTx, h1, h2]

/-- Witness for C9: flag set, no transaction — the default comes back
with no locking clause. -/
theorem c9_locking_only_ambient_witness :
    GetTxOrDefault (DB.base 0) (SelectForUpdate Ctx.background)
        = (DB.base 0).withContext (SelectForUpdate Ctx.background)
    ∧ (GetTxOrDefault (DB.base 0) (SelectForUpdate Ctx.background)).locked = false :=
  ⟨((c9_locking_only_ambient (DB.base 0) Ctx.background).1 rfl).2.2.1,
   ((c9_locking_only_ambient (DB.base 0) Ctx.background).1 rfl).2.2.2⟩

/-- C10: `SetTxFunc` evaluates at call time and stores a transaction
value: with an ambient transaction present the stored value is that
transaction (independently of `f`, which is never consulted); otherwise
`f ctx`'s result is stored; and a later lookup on the derived context
finds the stored value rather than re-running `f`. -/
theorem c10_setTxFunc_eager (ctx : Ctx) (f : Ctx → Option DB) :
    SetTxFunc ctx f = SetTx ctx (fromTxFunc f ctx)
    ∧ (∀ tx, GetTx ctx = some tx → SetTxFunc ctx f = SetTx ctx (some tx))
    ∧ (∀ tx g, GetTx ctx = some tx → SetTxFunc ctx f = SetTxFunc ctx g)
    ∧ (GetTx ctx = none → SetTxFunc ctx f = SetTx ctx (f ctx))
    ∧ ctxValueTx (SetTxFunc ctx f) = some (fromTxFunc f ctx)
    ∧ GetTx (SetTxFunc ctx f) = GetTx (SetTx ctx (fromTxFunc f ctx)) := by
  refine ⟨rfl, fun tx h => ?_, fun tx g h => ?_, fun h => ?_, rfl, rfl⟩
  · simp [SetTxFunc, SetTx, fromTxFunc, h]
  · simp [SetTxFunc, fromTxFunc, h]
  · simp [SetTxFunc, SetTx, fromTxFunc, h]

/-- Witness for C10: with an ambient transaction, the stored value is
that transaction whatever `f` returns; without one, `f`'s result is
stored. -/
theorem c10_setTxFunc_eager_witness :
    SetTxFunc (SetTx Ctx.background (some (DB.base 4))) (fun _ => some (DB.base 9))
        = SetTx (SetTx Ctx.background (some (DB.base 4))) (some (DB.base 4))
    ∧ SetTxFunc Ctx.background (fun _ => some (DB.base 9))
        = SetTx Ctx.background (some (DB.base 9)) :=
  ⟨(c10_setTxFunc_eager (SetTx Ctx.background (some (DB.base 4)))
      (fun _ => some (DB.base 9))).2.1 (DB.base 4) rfl,
   (c10_setTxFunc_eager Ctx.background (fun _ => some (DB.base 9))).2.2.2.1 rfl⟩
